import Mathlib

/-!
# Verification of the subscription-reconciliation handlers (handler.go)

Shallow embedding of the HTTP action handlers `Subscribe.Handle`,
`Unsubscribe.Handle` and `StripeHook.Handle` from `handler.go`, together
with the collaborators they use.  The handlers themselves are translated
from the source; the data model (`Account`, `Customer`, `Subscription`),
the store operations and the operations `AccountFromEmail`,
`EnsureSubscription`, `Account.SetPaymentSource` (as a provider oracle
call), `Account.Subscription` and `Account.HasActiveSubscription` are
defined elsewhere in the repository and are modelled from the spec, as
noted in their doc comments.

Effects are made explicit: every handler returns its outcome, the final
store, and the ordered list of provider/store effects it performed.  A Go
`nil`-pointer dereference is modelled as the distinguished outcome
`Outcome.panicked`.
-/

/-- Modelled from the spec: the provider SDK error type tag
(`stripe.Error.Type`); only the card type is distinguished (§7). -/
inductive StripeErrorType where
  | card
  | other
deriving DecidableEq, Repr

/-- Modelled from the spec: the provider SDK error value (`stripe.Error`),
carrying its type tag. -/
structure StripeErr where
  type : StripeErrorType
deriving DecidableEq, Repr

/-- The Go `error` values occurring in `handler.go`:
`pc.InvalidAuthToken`, `pc.BadRequest`, a raw provider `*stripe.Error`,
the wrapper `*StripeError` produced by `wrapCardError`, and any other
error (network, store, ...). -/
inductive GoError where
  | invalidAuthToken
  | badRequest (msg : String)
  | providerErr (e : StripeErr)
  | stripeError (e : StripeErr)
  | otherErr (msg : String)
deriving DecidableEq, Repr

/-- The caller-side discrimination of a card error: a Go type switch
`err.(*StripeError)` succeeds exactly on the wrapper produced by
`wrapCardError` (§7: the two kinds are distinguishable by the caller). -/
def GoError.isCardError : GoError → Bool
  | .stripeError _ => true
  | _ => false

/-- Modelled from the spec: a Subscription (§3) — provider-assigned ID,
plan identifier, status, trial-end timestamp. -/
structure Subscription where
  ID : String
  Plan : String
  Status : String
  TrialEnd : Int
deriving DecidableEq, Repr

/-- Modelled from the spec: a Customer (§3) — provider-assigned ID, email,
and its (at most one) subscription, from which the Account's subscription
reference is derived. -/
structure Customer where
  ID : String
  Email : String
  subscription : Option Subscription
deriving DecidableEq, Repr

/-- Modelled from the spec: an Account (§3) — keyed by email, with a
tracking identifier and a nullable customer reference (a Go
`*stripe.Customer`, so `none` is the `nil` pointer). -/
structure Account where
  Email : String
  TrackingID : String
  Customer : Option Customer
deriving DecidableEq, Repr

/-- Overwrite the fields of the Account's subscription object with a
provider response (the Go `*s = *s_` through the pointer into
`acc.Customer`). -/
def Account.setSubscription (a : Account) (s : Subscription) : Account :=
  { a with Customer := a.Customer.map (fun c => { c with subscription := some s }) }

/-- Modelled from the spec: `Account.Subscription()` — the Account's
subscription reference, nullable, derived from the customer reference
(§3). -/
def Account.Subscription (a : Account) : Option Subscription :=
  a.Customer.bind (fun c => c.subscription)

/-- Modelled from the spec: `Account.HasActiveSubscription()` — whether the
Account currently has an active (or trialing) subscription (§3 status
enum, §4.2 precondition flag). -/
def Account.HasActiveSubscription (a : Account) : Bool :=
  match a.Subscription with
  | some s => s.Status == "active" || s.Status == "trialing"
  | none => false

/-- Modelled from the spec: the Account Store (§6), a durable mapping from
email to Account. -/
abbrev Store := List (String × Account)

/-- Modelled from the spec: `getByEmail` lookup half (§6). -/
def Store.get (st : Store) (email : String) : Option Account :=
  (st.find? (fun kv => kv.1 == email)).map (fun kv => kv.2)

/-- Modelled from the spec: `put` upsert (§6), last-write-wins at Account
granularity (§5). -/
def Store.put (st : Store) (acc : Account) : Store :=
  (acc.Email, acc) :: st.filter (fun kv => kv.1 != acc.Email)

/-- Modelled from the spec: `AccountFromEmail(email, true)` — get the
Account by email, creating a fresh one (no customer reference yet) if
absent (§6 get-or-create, §3 lazy lifecycle). -/
def AccountFromEmail (st : Store) (email : String) : Account :=
  match Store.get st email with
  | some a => a
  | none => { Email := email, TrackingID := "", Customer := none }

/-- The provider and store effects a handler can perform, in order. -/
inductive Eff where
  | createCustomer (email : String)
  | attachSource (email token : String)
  | createSub (custID : String)
  | updateSub (subID : String)
  | cancelSub (subID : String)
  | fetchCustomer (custID : String)
  | putAccount (email : String)
deriving DecidableEq, Repr

/-- Modelled from the spec: the Billing Provider Client (§6), an oracle
giving each remote call's result.  `attachPaymentSource` abstracts
`Account.SetPaymentSource` (attach the token to the Account's customer on
the provider, returning the updated Customer or an error, §4.2/§6);
`updateSubscription` is `sub.Update` with `TrialEndNow`;
`cancelSubscription` is `sub.Cancel`; `fetchCustomer` is `customer.Get`. -/
structure Provider where
  createCustomer : String → Except GoError Customer
  attachPaymentSource : Account → String → Except GoError Customer
  createSubscription : String → Except GoError Subscription
  updateSubscription : String → Except GoError Subscription
  cancelSubscription : String → Except GoError Subscription
  fetchCustomer : String → Except GoError Customer

/-- The result of a handler invocation: an `ok` value, a returned Go
`error`, or a runtime panic (Go `nil`-pointer dereference). -/
inductive Outcome (α : Type) where
  | ok (a : α)
  | err (e : GoError)
  | panicked (msg : String)
deriving DecidableEq, Repr

/-- The Go runtime's message for dereferencing a nil pointer. -/
def nilDereference : String :=
  "invalid memory address or nil pointer dereference"

/-- Modelled from the spec: the authentication token; `a.Account().Email`
is the authenticated account's email. -/
structure AuthToken where
  email : String
deriving DecidableEq, Repr

/-- `wrapCardError` from handler.go: a provider error whose type is the
card type is wrapped in `StripeError`; any other error is returned
unchanged. -/
def wrapCardError : GoError → GoError
  | .providerErr se => if se.type = .card then .stripeError se else .providerErr se
  | e => e

/-- Step 2 of `EnsureSubscription` (the Account's customer reference `c`
is already present): if the customer has no subscription, create one on
the provider and attach it to the Account. -/
def ensureSubStep2 (p : Provider) (acc : Account) (c : Customer) :
    Except GoError (Subscription × Account) × List Eff :=
  match c.subscription with
  | some s => (.ok (s, acc), [])
  | none =>
    match p.createSubscription c.ID with
    | .error e => (.error e, [Eff.createSub c.ID])
    | .ok s => (.ok (s, acc.setSubscription s), [Eff.createSub c.ID])

/-- Modelled from the spec: `EnsureSubscription` (§4.1) — create the
customer on the provider if the Account has none, then create the
subscription if the customer has none; return the guaranteed subscription
together with the updated in-memory Account (the caller persists).  Any
provider failure aborts the operation, retaining partial in-memory
state. -/
def EnsureSubscription (p : Provider) (acc : Account) :
    Except GoError (Subscription × Account) × List Eff :=
  match acc.Customer with
  | some c => ensureSubStep2 p acc c
  | none =>
    match p.createCustomer acc.Email with
    | .error e => (.error e, [Eff.createCustomer acc.Email])
    | .ok c =>
      let r := ensureSubStep2 p { acc with Customer := some c } c
      (r.1, Eff.createCustomer acc.Email :: r.2)

/-- The outcome value of a successful Subscribe: the analytics event name
and the dashboard redirect action. -/
structure SubOutcome where
  eventName : String
  action : String
deriving DecidableEq, Repr

/-- `Subscribe.Handle` from handler.go: nil-auth check, empty-token check,
resolve Account, capture the pre-mutation `newSubscription` flag, attach
the payment source (card errors wrapped), ensure the subscription, end the
trial via `sub.Update` (card errors wrapped, response written through the
subscription pointer), persist, and report the outcome chosen by the
pre-mutation flag.  The Go locals `acc` and `newSubscription` are inlined:
the embedding is pure, so every occurrence of
`AccountFromEmail st a.email` reads the same pre-mutation account, and the
outcome flag is the pre-mutation `HasActiveSubscription`. -/
def Subscribe.Handle (p : Provider) (st : Store) (auth : Option AuthToken)
    (token : String) : Outcome SubOutcome × Store × List Eff :=
  match auth with
  | none => (.err .invalidAuthToken, st, [])
  | some a =>
    if token == "" then
      (.err (.badRequest "No stripe token provided"), st, [])
    else
      match p.attachPaymentSource (AccountFromEmail st a.email) token with
      | .error e => (.err (wrapCardError e), st,
          [Eff.attachSource (AccountFromEmail st a.email).Email token])
      | .ok c =>
        match (EnsureSubscription p { AccountFromEmail st a.email with Customer := some c }).1 with
        | .error e => (.err e, st,
            Eff.attachSource (AccountFromEmail st a.email).Email token ::
              (EnsureSubscription p { AccountFromEmail st a.email with Customer := some c }).2)
        | .ok (s, acc2) =>
          match p.updateSubscription s.ID with
          | .error e =>
            (.err (wrapCardError e), st,
              Eff.attachSource (AccountFromEmail st a.email).Email token ::
                (EnsureSubscription p { AccountFromEmail st a.email with Customer := some c }).2 ++
                [Eff.updateSub s.ID])
          | .ok s2 =>
            (.ok (if !(AccountFromEmail st a.email).HasActiveSubscription then
                    ⟨"Buy Subscription", "subscribed"⟩
                  else ⟨"Update Payment Method", "payment-updated"⟩),
              Store.put st (acc2.setSubscription s2),
              Eff.attachSource (AccountFromEmail st a.email).Email token ::
                (EnsureSubscription p { AccountFromEmail st a.email with Customer := some c }).2 ++
                [Eff.updateSub s.ID, Eff.putAccount (acc2.setSubscription s2).Email])

/-- `Unsubscribe.Handle` from handler.go: resolve the Account from the
auth token (dereferenced without a nil check), bad-request if there is no
subscription reference, cancel on the provider, write the response through
the subscription pointer, persist. -/
def Unsubscribe.Handle (p : Provider) (st : Store) (auth : Option AuthToken) :
    Outcome String × Store × List Eff :=
  match auth with
  | none => (.panicked nilDereference, st, [])
  | some a =>
    let acc := AccountFromEmail st a.email
    match acc.Subscription with
    | none => (.err (.badRequest "This account does not have an active subscription"), st, [])
    | some s =>
      match p.cancelSubscription s.ID with
      | .error e => (.err e, st, [Eff.cancelSub s.ID])
      | .ok s2 =>
        let acc2 := acc.setSubscription s2
        (.ok "unsubscribed", Store.put st acc2,
          [Eff.cancelSub s.ID, Eff.putAccount acc2.Email])

/-- A webhook event envelope (`stripe.Event`) after JSON parsing: the type
tag, the payload customer (`event.Data.Raw` deserialized, meaningful for
the customer lifecycle types) and the payload's customer ID
(`event.GetObjValue "customer"`, meaningful for the subscription lifecycle
types). -/
structure Event where
  type : String
  dataCustomer : Customer
  objCustomerID : String
deriving DecidableEq, Repr

/-- The body of `StripeHook.Handle` once a customer object `c` has been
produced: resolve (or create) the Account by the customer's email, then
the same-ID guard `acc.Customer.ID == c.ID` — a Go nil-pointer
dereference when the Account has no customer reference — and an
unconditional `Storage.Put`. -/
def applyCustomer (st : Store) (c : Customer) (tr : List Eff) :
    Outcome Unit × Store × List Eff :=
  let acc := AccountFromEmail st c.Email
  match acc.Customer with
  | none => (.panicked nilDereference, st, tr)
  | some cust =>
    let acc2 := if cust.ID == c.ID then { acc with Customer := some c } else acc
    (.ok (), Store.put st acc2, tr ++ [Eff.putAccount acc2.Email])

/-- `StripeHook.Handle` from handler.go: customer lifecycle events carry
the customer in the payload; subscription lifecycle events trigger a live
`customer.Get`; any other type is a no-op. -/
def StripeHook.Handle (p : Provider) (st : Store) (ev : Event) :
    Outcome Unit × Store × List Eff :=
  if ev.type == "customer.created" || ev.type == "customer.updated" then
    applyCustomer st ev.dataCustomer []
  else if ev.type == "customer.subscription.created"
      || ev.type == "customer.subscription.updated"
      || ev.type == "customer.subscription.deleted" then
    match p.fetchCustomer ev.objCustomerID with
    | .error e => (.err e, st, [Eff.fetchCustomer ev.objCustomerID])
    | .ok c => applyCustomer st c [Eff.fetchCustomer ev.objCustomerID]
  else
    (.ok (), st, [])

/-- The customer object a webhook event resolves to, mirroring the type
switch of `StripeHook.Handle`: the payload customer for the customer
lifecycle family, the fetched customer for the subscription lifecycle
family, nothing otherwise. -/
def resolvedCustomer (p : Provider) (ev : Event) : Option Customer :=
  if ev.type == "customer.created" || ev.type == "customer.updated" then
    some ev.dataCustomer
  else if ev.type == "customer.subscription.created"
      || ev.type == "customer.subscription.updated"
      || ev.type == "customer.subscription.deleted" then
    (p.fetchCustomer ev.objCustomerID).toOption
  else
    none

/-! ## Concrete fixtures -/

/-- An active subscription fixture. -/
def subActive : Subscription :=
  { ID := "sub_1", Plan := "padlock-pro", Status := "active", TrialEnd := 0 }

/-- The provider's cancel response for `subActive`. -/
def subCanceled : Subscription :=
  { ID := "sub_1", Plan := "padlock-pro", Status := "canceled", TrialEnd := 0 }

/-- A customer fixture owning `subActive`. -/
def custA : Customer :=
  { ID := "cus_1", Email := "a@b.com", subscription := some subActive }

/-- An account fixture owning `custA`. -/
def accA : Account :=
  { Email := "a@b.com", TrackingID := "t1", Customer := some custA }

/-- A store holding exactly `accA`. -/
def stA : Store := [("a@b.com", accA)]

/-- A provider oracle on which every call succeeds. -/
def okProvider : Provider :=
  { createCustomer := fun e => .ok { ID := "cus_new", Email := e, subscription := none }
    attachPaymentSource := fun a _ =>
      .ok (match a.Customer with
           | some c => c
           | none => { ID := "cus_new", Email := a.Email, subscription := none })
    createSubscription := fun _ => .ok subActive
    updateSubscription := fun _ => .ok subActive
    cancelSubscription := fun _ => .ok subCanceled
    fetchCustomer := fun i => .ok { ID := i, Email := "a@b.com", subscription := some subActive } }

/-- A provider error of the card type. -/
def cardErr : GoError := .providerErr { type := .card }

/-- A provider oracle whose attach-payment-source call is rejected with a
card error. -/
def failProvider : Provider :=
  { okProvider with attachPaymentSource := fun _ _ => .error cardErr }

/-- A webhook customer payload sharing `accA`'s email but carrying a
different customer ID. -/
def custB2 : Customer := { ID := "cus_2", Email := "a@b.com", subscription := none }

/-- A webhook customer payload carrying `accA`'s customer ID. -/
def custB1 : Customer := { ID := "cus_1", Email := "a@b.com", subscription := none }

/-- A customer-updated event carrying `custB2` (guard must fail). -/
def evDiff : Event :=
  { type := "customer.updated", dataCustomer := custB2, objCustomerID := "" }

/-- A customer-updated event carrying `custB1` (guard must succeed). -/
def evSame : Event :=
  { type := "customer.updated", dataCustomer := custB1, objCustomerID := "" }

/-- A customer-created event for an email with no existing account. -/
def evFresh : Event :=
  { type := "customer.created",
    dataCustomer := { ID := "cus_1", Email := "new@b.com", subscription := none },
    objCustomerID := "" }

/-! ## Helper lemmas -/

/-- `ensureSubStep2` never emits a store put. -/
theorem ensureSubStep2_no_put (p : Provider) (acc : Account) (c : Customer) (em : String) :
    Eff.putAccount em ∉ (ensureSubStep2 p acc c).2 := by
  unfold ensureSubStep2
  split
  · simp
  · split <;> simp

/-- `EnsureSubscription` never emits a store put (the caller persists). -/
theorem ensureSubscription_no_put (p : Provider) (acc : Account) (em : String) :
    Eff.putAccount em ∉ (EnsureSubscription p acc).2 := by
  unfold EnsureSubscription
  split
  · exact ensureSubStep2_no_put p acc _ em
  · split
    · simp
    · simp only [List.mem_cons, not_or]
      refine ⟨by simp, ?_⟩
      exact ensureSubStep2_no_put p _ _ em

/-! ## Claim theorems -/

/-- C10: Subscribe with a nil auth token returns the invalid-auth-token
error with no effect and without reading the token (the result is the same
for every token and provider); Unsubscribe performs no nil check and
dereferences the nil auth token, modelled as a panic. -/
theorem nil_auth_token_handling :
    (∀ (p : Provider) (st : Store) (token : String),
      Subscribe.Handle p st none token = (.err .invalidAuthToken, st, [])) ∧
    (∀ (p : Provider) (st : Store),
      Unsubscribe.Handle p st none = (.panicked nilDereference, st, [])) :=
  ⟨fun _ _ _ => rfl, fun _ _ => rfl⟩

/-- C7: Subscribe with an authenticated caller but an empty payment-source
token returns a malformed-request error, with no provider call and no
store mutation (empty effect list, store unchanged). -/
theorem subscribe_empty_token_bad_request (p : Provider) (st : Store) (a : AuthToken) :
    Subscribe.Handle p st (some a) "" =
      (.err (.badRequest "No stripe token provided"), st, []) := rfl

/-- C9: a webhook event whose type is none of the five recognized
customer/subscription lifecycle types returns success, resolves no
account, performs no provider call and no store put (empty effect list,
store unchanged). -/
theorem stripeHook_unrecognized_noop (p : Provider) (st : Store) (ev : Event)
    (h1 : ev.type ≠ "customer.created") (h2 : ev.type ≠ "customer.updated")
    (h3 : ev.type ≠ "customer.subscription.created")
    (h4 : ev.type ≠ "customer.subscription.updated")
    (h5 : ev.type ≠ "customer.subscription.deleted") :
    StripeHook.Handle p st ev = (.ok (), st, []) := by
  have b1 : (ev.type == "customer.created") = false := beq_eq_false_iff_ne.mpr h1
  have b2 : (ev.type == "customer.updated") = false := beq_eq_false_iff_ne.mpr h2
  have b3 : (ev.type == "customer.subscription.created") = false := beq_eq_false_iff_ne.mpr h3
  have b4 : (ev.type == "customer.subscription.updated") = false := beq_eq_false_iff_ne.mpr h4
  have b5 : (ev.type == "customer.subscription.deleted") = false := beq_eq_false_iff_ne.mpr h5
  unfold StripeHook.Handle
  simp [b1, b2, b3, b4, b5]

/-- Witness for C9: a concrete unrecognized event type. -/
theorem stripeHook_unrecognized_noop_witness :
    StripeHook.Handle okProvider stA
      { type := "invoice.created", dataCustomer := custA, objCustomerID := "" } =
      (.ok (), stA, []) :=
  stripeHook_unrecognized_noop okProvider stA _
    (by decide) (by decide) (by decide) (by decide) (by decide)

/-- C6: Unsubscribe on an account whose subscription reference is absent
returns the malformed-request error, performs no provider call and no
store write (empty effect list, store unchanged). -/
theorem unsubscribe_no_subscription_bad_request (p : Provider) (st : Store) (a : AuthToken)
    (h : (AccountFromEmail st a.email).Subscription = none) :
    Unsubscribe.Handle p st (some a) =
      (.err (.badRequest "This account does not have an active subscription"), st, []) := by
  unfold Unsubscribe.Handle
  simp [h]

/-- Witness for C6: an email with no stored account yields a fresh account
with no subscription reference. -/
theorem unsubscribe_no_subscription_witness :
    Unsubscribe.Handle okProvider [] (some ⟨"x@y.z"⟩) =
      (.err (.badRequest "This account does not have an active subscription"), [], []) :=
  unsubscribe_no_subscription_bad_request okProvider [] ⟨"x@y.z"⟩ rfl

/-- C1: evaluation of the webhook handler at the failing input.  For an
account with an absent customer reference the same-ID guard
`acc.Customer.ID == c.ID` dereferences a nil pointer (panic) instead of
overwriting, while the two in-range behaviours hold: a differing incoming
ID leaves the account's customer unchanged and a matching ID overwrites
it. -/
theorem stripeHook_same_id_guard_evaluation :
    StripeHook.Handle okProvider [] evFresh = (.panicked nilDereference, [], []) ∧
    StripeHook.Handle okProvider stA evDiff =
      (.ok (), Store.put stA accA, [Eff.putAccount "a@b.com"]) ∧
    StripeHook.Handle okProvider stA evSame =
      (.ok (), Store.put stA { accA with Customer := some custB1 },
        [Eff.putAccount "a@b.com"]) := by
  refine ⟨rfl, ?_, ?_⟩ <;> rfl

/-- C2 counterexample: a recognized event whose same-ID guard fails
(existing customer `cus_1`, incoming `cus_2`) still performs a store put —
the put is unconditional, refuting "persisted only after a successful
overwrite". -/
theorem stripeHook_guard_fail_still_persists :
    (StripeHook.Handle okProvider stA evDiff).1 = .ok () ∧
    (AccountFromEmail stA "a@b.com").Customer = some custA ∧
    custA.ID ≠ custB2.ID ∧
    Eff.putAccount "a@b.com" ∈ (StripeHook.Handle okProvider stA evDiff).2.2 := by
  refine ⟨rfl, rfl, by decide, ?_⟩
  show Eff.putAccount "a@b.com" ∈ [Eff.putAccount "a@b.com"]
  simp

/-- C2 (amended): for every recognized event resolving to a customer `c`,
when the existing local customer reference is present with a different ID,
the handler skips the overwrite and returns success, but still persists
the unmodified account to the store — the put is unconditional, not gated
on a successful overwrite. -/
theorem stripeHook_guard_fail_silent_put (p : Provider) (st : Store) (ev : Event)
    (c cust : Customer)
    (hres : resolvedCustomer p ev = some c)
    (hcust : (AccountFromEmail st c.Email).Customer = some cust)
    (hid : cust.ID ≠ c.ID) :
    StripeHook.Handle p st ev =
      (.ok (), Store.put st (AccountFromEmail st c.Email),
        (if ev.type == "customer.created" || ev.type == "customer.updated" then ([] : List Eff)
         else [Eff.fetchCustomer ev.objCustomerID]) ++
          [Eff.putAccount (AccountFromEmail st c.Email).Email]) := by
  have hguard : (cust.ID == c.ID) = false := beq_eq_false_iff_ne.mpr hid
  unfold resolvedCustomer at hres
  unfold StripeHook.Handle
  by_cases h1 : (ev.type == "customer.created" || ev.type == "customer.updated") = true
  · rw [if_pos h1] at hres ⊢
    rw [if_pos h1]
    cases hres
    simp [applyCustomer, hcust, hguard]
  · rw [if_neg h1] at hres ⊢
    rw [if_neg h1]
    by_cases h2 : (ev.type == "customer.subscription.created"
        || ev.type == "customer.subscription.updated"
        || ev.type == "customer.subscription.deleted") = true
    · rw [if_pos h2] at hres ⊢
      cases hf : p.fetchCustomer ev.objCustomerID with
      | error e => rw [hf] at hres; cases hres
      | ok c2 =>
        rw [hf] at hres
        simp only [Except.toOption, Option.some.injEq] at hres
        cases hres
        simp [applyCustomer, hcust, hguard]
    · rw [if_neg h2] at hres
      cases hres

/-- Witness for C2: the concrete guard-failure run (`cus_1` on the account,
`cus_2` in the event). -/
theorem stripeHook_guard_fail_silent_put_witness :
    StripeHook.Handle okProvider stA evDiff =
      (.ok (), Store.put stA (AccountFromEmail stA custB2.Email),
        (if evDiff.type == "customer.created" || evDiff.type == "customer.updated"
         then ([] : List Eff)
         else [Eff.fetchCustomer evDiff.objCustomerID]) ++
          [Eff.putAccount (AccountFromEmail stA custB2.Email).Email]) :=
  stripeHook_guard_fail_silent_put okProvider stA evDiff custB2 custA rfl rfl (by decide)

/-- C3: whenever Subscribe returns an error — in particular whenever the
attach-payment-source, ensure-subscription or trial-end provider call
fails — the store is left unchanged and no store put was performed, so the
account's persisted state is its last successfully-persisted one. -/
theorem subscribe_provider_error_atomic (p : Provider) (st : Store)
    (auth : Option AuthToken) (token : String) (e : GoError)
    (h : (Subscribe.Handle p st auth token).1 = .err e) :
    (Subscribe.Handle p st auth token).2.1 = st ∧
      ∀ em, Eff.putAccount em ∉ (Subscribe.Handle p st auth token).2.2 := by
  revert h
  unfold Subscribe.Handle
  split
  · exact fun _ => ⟨rfl, by simp⟩
  · split
    · exact fun _ => ⟨rfl, by simp⟩
    · split
      · exact fun _ => ⟨rfl, by simp⟩
      · split
        · refine fun _ => ⟨rfl, fun em => ?_⟩
          simp only [List.mem_cons, not_or]
          exact ⟨by simp, ensureSubscription_no_put p _ em⟩
        · split
          · refine fun _ => ⟨rfl, fun em => ?_⟩
            intro hmem
            simp only [List.mem_cons, List.mem_append, List.mem_singleton] at hmem
            rcases hmem with (h1 | h2) | h3
            · simp at h1
            · exact ensureSubscription_no_put p _ em h2
            · simp at h3
          · intro h
            simp at h

/-- Witness for C3: a concrete run in which the attach-payment-source call
fails with a card error; the store is unchanged and no put happens. -/
theorem subscribe_provider_error_atomic_witness :
    (Subscribe.Handle failProvider stA (some ⟨"a@b.com"⟩) "tok").2.1 = stA ∧
      ∀ em, Eff.putAccount em ∉
        (Subscribe.Handle failProvider stA (some ⟨"a@b.com"⟩) "tok").2.2 :=
  subscribe_provider_error_atomic failProvider stA (some ⟨"a@b.com"⟩) "tok"
    (.stripeError { type := .card }) rfl

/-- C4: the analytics outcome of a successful Subscribe run is determined
solely by whether the account lacked an active subscription in the
pre-mutation state: event "Buy Subscription" with action "subscribed"
when it lacked one, event "Update Payment Method" with action
"payment-updated" when it already had one. -/
theorem subscribe_outcome_from_pre_state (p : Provider) (st : Store) (a : AuthToken)
    (token : String) (out : SubOutcome)
    (h : (Subscribe.Handle p st (some a) token).1 = .ok out) :
    out = if (AccountFromEmail st a.email).HasActiveSubscription
          then ⟨"Update Payment Method", "payment-updated"⟩
          else ⟨"Buy Subscription", "subscribed"⟩ := by
  revert h
  unfold Subscribe.Handle
  split
  · intro h
    simp at h
  · split
    · intro h
      simp at h
    · split
      · intro h
        simp at h
      · split
        · intro h
          simp at h
        · split
          · intro h
            simp at h
          · intro h
            cases hb : (AccountFromEmail st a.email).HasActiveSubscription <;> simp_all

/-- Witness for C4: `accA` already has an active subscription, so a
successful re-run of Subscribe is labeled "Update Payment Method". -/
theorem subscribe_outcome_from_pre_state_witness :
    ({ eventName := "Update Payment Method", action := "payment-updated" } : SubOutcome) =
      if (AccountFromEmail stA "a@b.com").HasActiveSubscription
      then ⟨"Update Payment Method", "payment-updated"⟩
      else ⟨"Buy Subscription", "subscribed"⟩ :=
  subscribe_outcome_from_pre_state okProvider stA ⟨"a@b.com"⟩ "tok" _ rfl

/-- C5: provider errors from the attach-payment-source and
subscription-update calls pass through `wrapCardError`: a provider error
of the card type is wrapped into the distinguished `StripeError` kind,
every other error is propagated unchanged, and the two kinds are
distinguishable by the caller. -/
theorem subscribe_card_error_classification :
    (∀ se : StripeErr, wrapCardError (.providerErr se) =
        if se.type = .card then .stripeError se else .providerErr se) ∧
    (∀ e : GoError, (∀ se, e ≠ .providerErr se) → wrapCardError e = e) ∧
    (∀ se : StripeErr,
        (GoError.stripeError se).isCardError = true ∧
        (GoError.providerErr se).isCardError = false) ∧
    (∀ (p : Provider) (st : Store) (a : AuthToken) (tok : String) (e : GoError),
        tok ≠ "" →
        p.attachPaymentSource (AccountFromEmail st a.email) tok = .error e →
        (Subscribe.Handle p st (some a) tok).1 = .err (wrapCardError e)) ∧
    (∀ (p : Provider) (st : Store) (a : AuthToken) (tok : String) (e : GoError)
        (c : Customer) (s : Subscription) (acc2 : Account),
        tok ≠ "" →
        p.attachPaymentSource (AccountFromEmail st a.email) tok = .ok c →
        (EnsureSubscription p { AccountFromEmail st a.email with Customer := some c }).1 =
          .ok (s, acc2) →
        p.updateSubscription s.ID = .error e →
        (Subscribe.Handle p st (some a) tok).1 = .err (wrapCardError e)) := by
  refine ⟨fun se => rfl, ?_, fun se => ⟨rfl, rfl⟩, ?_, ?_⟩
  · intro e he
    cases e <;> first | rfl | exact absurd rfl (he _)
  · intro p st a tok e htok hat
    have hb : (tok == "") = false := beq_eq_false_iff_ne.mpr htok
    unfold Subscribe.Handle
    simp [hb, hat]
  · intro p st a tok e c s acc2 htok hat hens hupd
    have hb : (tok == "") = false := beq_eq_false_iff_ne.mpr htok
    unfold Subscribe.Handle
    simp [hb, hat, hens, hupd]

/-- Witness for C5: the concrete card-rejected attach call surfaces as the
wrapped card error. -/
theorem subscribe_card_error_classification_witness :
    (Subscribe.Handle failProvider stA (some ⟨"a@b.com"⟩) "tok").1 =
      .err (wrapCardError cardErr) :=
  subscribe_card_error_classification.2.2.2.1 failProvider stA ⟨"a@b.com"⟩ "tok" cardErr
    (by decide) rfl

/-- C8: a successful Unsubscribe overwrites the account's subscription
object's fields with the provider's cancel response, keeps the reference
attached (not null), and persists the account. -/
theorem unsubscribe_success_retains_canceled (p : Provider) (st : Store) (a : AuthToken)
    (s s2 : Subscription)
    (hs : (AccountFromEmail st a.email).Subscription = some s)
    (hc : p.cancelSubscription s.ID = .ok s2) :
    Unsubscribe.Handle p st (some a) =
      (.ok "unsubscribed",
        Store.put st ((AccountFromEmail st a.email).setSubscription s2),
        [Eff.cancelSub s.ID,
          Eff.putAccount ((AccountFromEmail st a.email).setSubscription s2).Email]) ∧
    ((AccountFromEmail st a.email).setSubscription s2).Subscription = some s2 := by
  constructor
  · unfold Unsubscribe.Handle
    simp [hs, hc]
  · rcases hcu : (AccountFromEmail st a.email).Customer with _ | c
    · exfalso
      unfold Account.Subscription at hs
      rw [hcu] at hs
      simp at hs
    · unfold Account.setSubscription Account.Subscription
      rw [hcu]
      simp

/-- Witness for C8: the concrete cancel run on `accA`. -/
theorem unsubscribe_success_retains_canceled_witness :
    Unsubscribe.Handle okProvider stA (some ⟨"a@b.com"⟩) =
      (.ok "unsubscribed",
        Store.put stA ((AccountFromEmail stA "a@b.com").setSubscription subCanceled),
        [Eff.cancelSub subActive.ID,
          Eff.putAccount ((AccountFromEmail stA "a@b.com").setSubscription subCanceled).Email]) ∧
    ((AccountFromEmail stA "a@b.com").setSubscription subCanceled).Subscription =
      some subCanceled :=
  unsubscribe_success_retains_canceled okProvider stA ⟨"a@b.com"⟩ subActive subCanceled rfl rfl
